import Mathlib

/-!
# carbon_calc_DIO: emission model and input validation

Shallow embedding of `src/js/calculator.js`, of the catalogue of `src/js/config.js`,
of the form validation of `src/js/ui.js` and of the checks of `handleFormSubmit` in
`src/js/app.js`.

Modelling conventions
* A JavaScript number is an exact rational (`ℚ`): the arithmetic of the source is
  taken without rounding. `NaN` is the `none` of `Option ℚ` in the variants
  `calculateCO2EmissionNaN` and `calculateDetailedEmissionPerPersonNaN` of the
  calculation; the infinities are outside the model.
* The formatting functions do no arithmetic: they write the value their argument
  holds. Where the argument is given as a decimal numeral, the value it holds is the
  binary64 number the numeral denotes (`binary64`).
* A property read on an object literal finds the own properties and then the members
  of `Object.prototype`.
* A value that the source tests against `null` / `undefined` is an `Option`.
* The text of the people input reaches the code through `parseInt(_, 10)`; the
  model starts from the parsed value, `none` standing for `NaN`.
* A DOM element looked up with `document.getElementById` may be missing (`none`).
-/

namespace CarbonCalc

/-! ## calculator.js -/

/-- Result object of `calculateDetailedEmissionPerPerson`. -/
structure EmissionBreakdown where
  transportPerPerson : ℚ
  humanPerPerson : ℚ
  totalPerPerson : ℚ
  deriving DecidableEq, Repr

/-- Result object of the validators: `isValid` and `message`. -/
structure ValidationResult where
  isValid : Bool
  message : String
  deriving DecidableEq, Repr

/-- Source `calculateCO2Emission` (calculator.js, lines 19-43). The parameters are in
the order of the source: distance, transport factor, people, transport id, human
respiration factor. The defaults of the source (people 1, transport id "", human
respiration factor 0.0083) are for omitted arguments; here all five are passed. -/
def calculateCO2Emission (distance transportEmissionFactor people : ℚ)
    (transportId : String) (humanRespirationFactor : ℚ) : ℚ :=
  if distance ≤ 0 ∨ people < 1 then
    0
  else if transportEmissionFactor < 0 ∨ humanRespirationFactor < 0 then
    0
  else if transportId = "walking" then
    0
  else
    let transportEmission := (distance * transportEmissionFactor) / people
    let humanEmission := distance * humanRespirationFactor * people
    transportEmission + humanEmission

/-- Source `calculateDetailedEmissionPerPerson` (calculator.js, lines 56-96). -/
def calculateDetailedEmissionPerPerson (distance transportEmissionFactor people : ℚ)
    (transportId : String) (humanRespirationFactor : ℚ) : EmissionBreakdown :=
  if distance ≤ 0 ∨ people < 1 then
    ⟨0, 0, 0⟩
  else if transportEmissionFactor < 0 ∨ humanRespirationFactor < 0 then
    ⟨0, 0, 0⟩
  else if transportId = "walking" then
    ⟨0, 0, 0⟩
  else
    let transportPerPerson := (distance * transportEmissionFactor) / people
    let humanPerPerson := distance * humanRespirationFactor
    let totalPerPerson := transportPerPerson + humanPerPerson
    ⟨transportPerPerson, humanPerPerson, totalPerPerson⟩

/-- Source `validateCalculationParams` (calculator.js, lines 147-183). The distance is
`none` when it is `null` or `undefined`. -/
def validateCalculationParams (distance : Option ℚ) (emissionFactor : ℚ) :
    ValidationResult :=
  match distance with
  | none =>
    ⟨false, "Não foi possível calcular a distância entre as cidades selecionadas."⟩
  | some d =>
    if d < 0 then
      ⟨false, "A distância não pode ser negativa."⟩
    else if d = 0 then
      ⟨false, "A origem e o destino não podem ser a mesma cidade."⟩
    else if emissionFactor < 0 then
      ⟨false, "O fator de emissão não pode ser negativo."⟩
    else
      ⟨true, ""⟩

/-! ## ui.js -/

/-- The four form controls read by `getFormData`. Each is `none` when
`document.getElementById` finds no element; otherwise it holds the element's value.
For the people input the value is the result of `parseInt(value, 10)`, with `none`
for `NaN`. -/
structure FormDom where
  originSelect : Option String
  destinationSelect : Option String
  transportSelect : Option String
  peopleInput : Option (Option Int)

/-- Object returned by `getFormData`. -/
structure FormData where
  origin : String
  destination : String
  distance : Option ℚ
  transportId : String
  people : Int

/-- JavaScript truthiness of a string: every string but the empty one. -/
def truthyStr (s : String) : Bool := !(s == "")

/-- Source `getFormData` (ui.js, lines 112-141). `getDistanceBetweenCapitals` belongs to
the route table, another script of the page, and is a parameter here; `none` is its
`null` answer for a pair without a known route. The test `!people` of the source holds
for `NaN` and for 0. -/
def getFormData (getDistanceBetweenCapitals : String → String → Option ℚ)
    (dom : FormDom) : Option FormData :=
  match dom.originSelect, dom.destinationSelect, dom.transportSelect, dom.peopleInput with
  | some origin, some destination, some transportId, some parsed =>
    match parsed with
    | none => none
    | some people =>
      if !truthyStr origin || !truthyStr destination || !truthyStr transportId
          || people == 0 || decide (people < 1) then
        none
      else
        some ⟨origin, destination, getDistanceBetweenCapitals origin destination,
          transportId, people⟩
  | _, _, _, _ => none

/-- Source `validateForm` (ui.js, lines 261-303). -/
def validateForm (getDistanceBetweenCapitals : String → String → Option ℚ)
    (dom : FormDom) : ValidationResult :=
  match getFormData getDistanceBetweenCapitals dom with
  | none => ⟨false, "Por favor, preencha todos os campos."⟩
  | some formData =>
    if formData.origin = formData.destination then
      ⟨false, "A origem e o destino não podem ser a mesma cidade."⟩
    else if formData.distance = none then
      ⟨false, "Não foi possível calcular a distância entre as cidades selecionadas."⟩
    else if formData.people = 0 ∨ formData.people < 1 then
      ⟨false, "O número de pessoas deve ser pelo menos 1."⟩
    else if formData.people > 1000 then
      ⟨false, "O número de pessoas não pode ser maior que 1000."⟩
    else
      ⟨true, ""⟩

/-! ## Built-in number formatting used by calculator.js -/

/-- Rendering of a number in a template literal (`Number::toString`, radix 10). An
integer below 2^53 in magnitude is written with its decimal digits, a minus sign
first when negative: below 2^53 every integer is a binary64 number and its shortest
digits that read back as the same number are all its digits. Every other number is
written with the shortest digits that read back as the same binary64 value, which from
2^53 up may end in zeros that the integer does not have, and which is not a function
of the rational value alone: that rendering is the parameter `render`. -/
def numberToString (render : ℚ → String) (x : ℚ) : String :=
  if x.den = 1 ∧ |x| < 2 ^ 53 then toString x.num else render x

/-- A stand-in for the parameter `render` at inputs whose text never asks for it. -/
def unusedRender : ℚ → String := fun _ => ""

/-- Text of the integer `n` taken as a count of units of `10^-f`, as `toFixed` writes it:
the decimal digits of `n`, padded with zeros on the left to `f + 1` digits, and with a
point before the last `f` digits when `f` is not 0. -/
def fixedDigits (n f : Nat) : String :=
  let m := Nat.toDigits 10 n
  if f = 0 then
    String.mk m
  else
    let m := if m.length ≤ f then List.replicate (f + 1 - m.length) '0' ++ m else m
    let k := m.length
    String.mk (m.take (k - f) ++ '.' :: m.drop (k - f))

/-- The built-in `Number.prototype.toFixed` on the exact value `x` of the number, after
ECMAScript: a digit count above 100 throws `RangeError`; a negative `x` is written as
"-" followed by the text of `-x`; `x >= 10^21` is written as by `Number::toString`;
otherwise `n` is the integer with `n / 10^f` nearest to `x`, the larger one when two
are as near, and the text is `fixedDigits n f`. -/
def toFixed (render : ℚ → String) (x : ℚ) (f : Nat) : Except String String :=
  if f > 100 then
    .error "RangeError"
  else
    let s := if x < 0 then "-" else ""
    let x := if x < 0 then -x else x
    let m :=
      if x ≥ 10 ^ 21 then
        numberToString render x
      else
        let n := ⌊x * 10 ^ f + 1 / 2⌋.toNat
        fixedDigits n f
    .ok (s ++ m)

/-- Nearest integer, a half going to the even neighbour. -/
def roundHalfEven (y : ℚ) : ℤ :=
  let n := ⌊y⌋
  if y - n < 1 / 2 then n
  else if 1 / 2 < y - n then n + 1
  else if n % 2 = 0 then n
  else n + 1

/-- The value a decimal numeral of JavaScript source denotes: the binary64 number nearest
to the numeral (53 significant bits, round to nearest, a tie to the even significand).
Only the normal range of binary64 is meant, magnitudes from 2^-1022 up to 2^1024. -/
def binary64 (x : ℚ) : ℚ :=
  if x = 0 then 0
  else
    let ulp : ℚ := 2 ^ (Int.log 2 |x| - 52)
    roundHalfEven (x / ulp) * ulp

/-! ## calculator.js: formatting and trees -/

/-- Source `formatEmission` (calculator.js, lines 105-112). `decimals` is `none` when the
argument is omitted, and the default 2 is used. -/
def formatEmission (render : ℚ → String) (emission : ℚ) (decimals : Option Nat) :
    Except String String :=
  let decimals := decimals.getD 2
  if emission = 0 then
    .ok "0 kg CO₂"
  else do
    let formatted ← toFixed render emission decimals
    .ok (formatted ++ " kg CO₂")

/-- Source `formatDistance` (calculator.js, lines 120-126). -/
def formatDistance (render : ℚ → String) (distance : ℚ) : String :=
  if distance ≤ 0 then
    "0 km"
  else
    numberToString render distance ++ " km"

/-- Source `calculateTreesNeeded` (calculator.js, lines 135-138); `Math.ceil` is the
integer ceiling. -/
def calculateTreesNeeded (emission : ℚ) : ℤ :=
  let CO2_PER_TREE_PER_YEAR : ℚ := 22
  ⌈emission / CO2_PER_TREE_PER_YEAR⌉

/-- Division that fails when it is reached with a divisor below 1. -/
def divideFrom1 (a b : ℚ) : Except String ℚ :=
  if b < 1 then .error "divisor below 1" else .ok (a / b)

/-- Source `calculateCO2Emission` once more, with its division replaced by
`divideFrom1`: the result is an error exactly when the division is executed with a
divisor below 1. -/
def calculateCO2EmissionChecked (distance transportEmissionFactor people : ℚ)
    (transportId : String) (humanRespirationFactor : ℚ) : Except String ℚ :=
  if distance ≤ 0 ∨ people < 1 then
    .ok 0
  else if transportEmissionFactor < 0 ∨ humanRespirationFactor < 0 then
    .ok 0
  else if transportId = "walking" then
    .ok 0
  else do
    let transportEmission ← divideFrom1 (distance * transportEmissionFactor) people
    let humanEmission := distance * humanRespirationFactor * people
    .ok (transportEmission + humanEmission)

/-- Source `calculateDetailedEmissionPerPerson` once more, with its division replaced
by `divideFrom1`. -/
def calculateDetailedEmissionPerPersonChecked
    (distance transportEmissionFactor people : ℚ)
    (transportId : String) (humanRespirationFactor : ℚ) : Except String EmissionBreakdown :=
  if distance ≤ 0 ∨ people < 1 then
    .ok ⟨0, 0, 0⟩
  else if transportEmissionFactor < 0 ∨ humanRespirationFactor < 0 then
    .ok ⟨0, 0, 0⟩
  else if transportId = "walking" then
    .ok ⟨0, 0, 0⟩
  else do
    let transportPerPerson ← divideFrom1 (distance * transportEmissionFactor) people
    let humanPerPerson := distance * humanRespirationFactor
    let totalPerPerson := transportPerPerson + humanPerPerson
    .ok ⟨transportPerPerson, humanPerPerson, totalPerPerson⟩

/-! ## config.js -/

/-- A value that a property read of `EMISSION_FACTORS` can give: a number of the table,
`undefined`, or a member inherited from `Object.prototype` (a function or an object),
kept by the name it was read under. -/
inductive JsValue where
  | number (q : ℚ)
  | undefined
  | inherited (name : String)
  deriving DecidableEq, Repr

/-- Source `EMISSION_FACTORS` (config.js, lines 12-28): the own properties of the object
literal, in the order of the source. -/
def EMISSION_FACTORS : List (String × ℚ) :=
  [("car", 0.192),
   ("car_electric", 0.05),
   ("motorcycle", 0.113),
   ("bus", 0.089),
   ("train", 0.014),
   ("walking", 0),
   ("plane_domestic", 0.255),
   ("plane_international", 0.195),
   ("ship", 0.019),
   ("ferry", 0.018)]

/-- Property names of `Object.prototype`, which an object literal inherits. -/
def objectPrototypeKeys : List String :=
  ["constructor", "hasOwnProperty", "isPrototypeOf", "propertyIsEnumerable",
   "toLocaleString", "toString", "valueOf", "__proto__", "__defineGetter__",
   "__defineSetter__", "__lookupGetter__", "__lookupSetter__"]

/-- Property read `EMISSION_FACTORS[key]`: an own property first, then the prototype. -/
def emissionFactorsGet (key : String) : JsValue :=
  match EMISSION_FACTORS.lookup key with
  | some q => .number q
  | none => if key ∈ objectPrototypeKeys then .inherited key else .undefined

/-- JavaScript truthiness: 0 and `undefined` are falsy, functions and objects are truthy. -/
def JsValue.truthy : JsValue → Bool
  | .number q => decide (q ≠ 0)
  | .undefined => false
  | .inherited _ => true

/-- Source `getEmissionFactor` (config.js, lines 40-42):
`EMISSION_FACTORS[transportType] || 0`. -/
def getEmissionFactor (transportType : String) : JsValue :=
  let v := emissionFactorsGet transportType
  if v.truthy then v else .number 0

/-- Entry of the array returned by `getTransportTypes`. -/
structure TransportType where
  id : String
  name : String
  icon : String
  deriving DecidableEq, Repr

/-- Source `getTransportTypes` (config.js, lines 64-77). -/
def getTransportTypes : List TransportType :=
  [⟨"car", "Carro (Gasolina)", "🚗"⟩,
   ⟨"car_electric", "Carro Elétrico", "🚙"⟩,
   ⟨"motorcycle", "Motocicleta", "🏍️"⟩,
   ⟨"bus", "Ônibus", "🚌"⟩,
   ⟨"train", "Trem", "🚂"⟩,
   ⟨"walking", "Pessoa A Pé", "🚶"⟩,
   ⟨"plane_domestic", "Avião (Voo Doméstico)", "✈️"⟩,
   ⟨"plane_international", "Avião (Voo Internacional)", "🛫"⟩,
   ⟨"ship", "Navio/Cruzeiro", "🚢"⟩,
   ⟨"ferry", "Balsa/Ferry", "⛴️"⟩]

/-! ## app.js -/

/-- Source `HUMAN_RESPIRATION_FACTOR` (config.js, line 33). -/
def HUMAN_RESPIRATION_FACTOR : ℚ := 0.0083

/-- Source `getHumanRespirationFactor` (config.js, lines 48-50). -/
def getHumanRespirationFactor : ℚ := HUMAN_RESPIRATION_FACTOR

/-- Conversion of a value to a number, as a comparison with a number does it; `none` is
`NaN`, which `undefined`, a function and a plain object all convert to. -/
def JsValue.toNumber : JsValue → Option ℚ
  | .number q => some q
  | .undefined => none
  | .inherited _ => none

/-- The test `v < 0` of the source: false when `v` converts to `NaN`. -/
def JsValue.ltZero (v : JsValue) : Bool :=
  match v.toNumber with
  | some q => decide (q < 0)
  | none => false

/-- The test `v === null || v === undefined` of the source. -/
def JsValue.isNullish : JsValue → Bool
  | .undefined => true
  | .number _ => false
  | .inherited _ => false

/-- Source `validateCalculationParams` (calculator.js, lines 147-183) on an emission
factor that is any value `getEmissionFactor` can return, as `handleFormSubmit` calls
it. On a number it is `validateCalculationParams`. -/
def validateCalculationParamsValue (distance : Option ℚ) (emissionFactor : JsValue) :
    ValidationResult :=
  match distance with
  | none =>
    ⟨false, "Não foi possível calcular a distância entre as cidades selecionadas."⟩
  | some d =>
    if d < 0 then
      ⟨false, "A distância não pode ser negativa."⟩
    else if d = 0 then
      ⟨false, "A origem e o destino não podem ser a mesma cidade."⟩
    else if emissionFactor.ltZero then
      ⟨false, "O fator de emissão não pode ser negativo."⟩
    else
      ⟨true, ""⟩

/-- What `handleFormSubmit` has done when it leaves its checks: shown an error message
and returned, or gone on to the calculation with these five arguments. -/
inductive SubmitOutcome where
  | error (message : String)
  | calculate (distance : ℚ) (transportEmissionFactor : JsValue) (people : Int)
      (transportId : String) (humanRespirationFactor : ℚ)
  deriving DecidableEq

/-- Source `handleFormSubmit` (app.js, lines 75-129), from the form validation to the
call of `calculateCO2Emission`: each `showMessage(_, 'error'); return` is an `error`,
and reaching the calculation is `calculate` with the arguments of the call. The form is
read twice, by `validateForm` and by `getFormData`, in the same state. -/
def handleFormSubmit (getDistanceBetweenCapitals : String → String → Option ℚ)
    (dom : FormDom) : SubmitOutcome :=
  let validation := validateForm getDistanceBetweenCapitals dom
  if !validation.isValid then
    .error validation.message
  else
    match getFormData getDistanceBetweenCapitals dom with
    | none => .error "Erro ao obter dados do formulário."
    | some formData =>
      match formData.distance with
      | none =>
        .error "Não foi possível calcular a distância entre as cidades selecionadas."
      | some distance =>
        if distance ≤ 0 then
          .error "A origem e o destino não podem ser a mesma cidade."
        else
          let transportEmissionFactor := getEmissionFactor formData.transportId
          if transportEmissionFactor.isNullish || transportEmissionFactor.ltZero then
            .error "Tipo de transporte não encontrado ou inválido."
          else
            let humanRespirationFactor := getHumanRespirationFactor
            let calcValidation :=
              validateCalculationParamsValue (some distance) transportEmissionFactor
            if !calcValidation.isValid then
              .error calcValidation.message
            else
              .calculate distance transportEmissionFactor formData.people
                formData.transportId humanRespirationFactor

/-! ## calculator.js on numbers that may be NaN -/

/-- The test `a < b` on two numbers of which either may be `NaN` (`none`): false as soon
as one is `NaN`. -/
def jsLt (a b : Option ℚ) : Bool :=
  match a, b with
  | some x, some y => decide (x < y)
  | _, _ => false

/-- The test `a <= b` on two numbers of which either may be `NaN` (`none`): false as
soon as one is `NaN`. -/
def jsLe (a b : Option ℚ) : Bool :=
  match a, b with
  | some x, some y => decide (x ≤ y)
  | _, _ => false

/-- An arithmetic operation on two numbers of which either may be `NaN` (`none`): `NaN`
as soon as one is `NaN`, otherwise the operation on the two numbers. -/
def jsArith (op : ℚ → ℚ → ℚ) (a b : Option ℚ) : Option ℚ :=
  match a, b with
  | some x, some y => some (op x y)
  | _, _ => none

/-- Result object of `calculateDetailedEmissionPerPerson` when a field may be `NaN`. -/
structure EmissionBreakdownNaN where
  transportPerPerson : Option ℚ
  humanPerPerson : Option ℚ
  totalPerPerson : Option ℚ
  deriving DecidableEq

/-- Source `calculateCO2Emission` (calculator.js, lines 19-43) on arguments of which any
may be `NaN` (`none`), which is also what a factor that is not a number converts to.
The division is the one of `calculateCO2Emission`. -/
def calculateCO2EmissionNaN (distance transportEmissionFactor people : Option ℚ)
    (transportId : String) (humanRespirationFactor : Option ℚ) : Option ℚ :=
  if jsLe distance (some 0) || jsLt people (some 1) then
    some 0
  else if jsLt transportEmissionFactor (some 0) || jsLt humanRespirationFactor (some 0) then
    some 0
  else if transportId = "walking" then
    some 0
  else
    let transportEmission :=
      jsArith (· / ·) (jsArith (· * ·) distance transportEmissionFactor) people
    let humanEmission :=
      jsArith (· * ·) (jsArith (· * ·) distance humanRespirationFactor) people
    jsArith (· + ·) transportEmission humanEmission

/-- Source `calculateDetailedEmissionPerPerson` (calculator.js, lines 56-96) on arguments
of which any may be `NaN` (`none`). -/
def calculateDetailedEmissionPerPersonNaN
    (distance transportEmissionFactor people : Option ℚ)
    (transportId : String) (humanRespirationFactor : Option ℚ) : EmissionBreakdownNaN :=
  if jsLe distance (some 0) || jsLt people (some 1) then
    ⟨some 0, some 0, some 0⟩
  else if jsLt transportEmissionFactor (some 0) || jsLt humanRespirationFactor (some 0) then
    ⟨some 0, some 0, some 0⟩
  else if transportId = "walking" then
    ⟨some 0, some 0, some 0⟩
  else
    let transportPerPerson :=
      jsArith (· / ·) (jsArith (· * ·) distance transportEmissionFactor) people
    let humanPerPerson := jsArith (· * ·) distance humanRespirationFactor
    let totalPerPerson := jsArith (· + ·) transportPerPerson humanPerPerson
    ⟨transportPerPerson, humanPerPerson, totalPerPerson⟩

/-! ## The emission formulas -/

/-- C1: for distance > 0, people >= 1, non-negative factors and a transport id other
than "walking", `calculateCO2Emission` is
`(distance * factor) / people + distance * humanFactor * people`. -/
theorem calculateCO2Emission_formula (distance transportEmissionFactor people : ℚ)
    (transportId : String) (humanRespirationFactor : ℚ)
    (hd : 0 < distance) (hp : 1 ≤ people) (hf : 0 ≤ transportEmissionFactor)
    (hh : 0 ≤ humanRespirationFactor) (hw : transportId ≠ "walking") :
    calculateCO2Emission distance transportEmissionFactor people transportId
        humanRespirationFactor
      = (distance * transportEmissionFactor) / people
        + distance * humanRespirationFactor * people := by
  unfold calculateCO2Emission
  rw [if_neg (by push_neg; exact ⟨hd, hp⟩), if_neg (by push_neg; exact ⟨hf, hh⟩),
    if_neg hw]

/-- C1, the scenario of the specification: 429 km by car (0.192) with 2 people and
human factor 0.0083 gives 48.3054. -/
theorem calculateCO2Emission_formula_witness :
    calculateCO2Emission 429 0.192 2 "car" 0.0083 = 48.3054 := by
  rw [calculateCO2Emission_formula 429 0.192 2 "car" 0.0083 (by norm_num) (by norm_num)
    (by norm_num) (by norm_num) (by decide)]
  norm_num

/-- C2: for distance > 0, people >= 1, non-negative factors and a transport id other
than "walking", the breakdown has transportPerPerson = (distance * factor) / people,
humanPerPerson = distance * humanFactor (not multiplied by people) and totalPerPerson
the sum of the two. -/
theorem calculateDetailedEmissionPerPerson_formula
    (distance transportEmissionFactor people : ℚ)
    (transportId : String) (humanRespirationFactor : ℚ)
    (hd : 0 < distance) (hp : 1 ≤ people) (hf : 0 ≤ transportEmissionFactor)
    (hh : 0 ≤ humanRespirationFactor) (hw : transportId ≠ "walking") :
    (calculateDetailedEmissionPerPerson distance transportEmissionFactor people
        transportId humanRespirationFactor).transportPerPerson
      = (distance * transportEmissionFactor) / people
    ∧ (calculateDetailedEmissionPerPerson distance transportEmissionFactor people
        transportId humanRespirationFactor).humanPerPerson
      = distance * humanRespirationFactor
    ∧ (calculateDetailedEmissionPerPerson distance transportEmissionFactor people
        transportId humanRespirationFactor).totalPerPerson
      = (calculateDetailedEmissionPerPerson distance transportEmissionFactor people
          transportId humanRespirationFactor).transportPerPerson
        + (calculateDetailedEmissionPerPerson distance transportEmissionFactor people
          transportId humanRespirationFactor).humanPerPerson := by
  unfold calculateDetailedEmissionPerPerson
  rw [if_neg (by push_neg; exact ⟨hd, hp⟩), if_neg (by push_neg; exact ⟨hf, hh⟩),
    if_neg hw]
  exact ⟨rfl, rfl, rfl⟩

/-- C2, the scenario of the specification: 429 km by car with 2 people gives
41.184, 3.5607 and 44.7447 per person. -/
theorem calculateDetailedEmissionPerPerson_formula_witness :
    (calculateDetailedEmissionPerPerson 429 0.192 2 "car" 0.0083).transportPerPerson
      = 41.184
    ∧ (calculateDetailedEmissionPerPerson 429 0.192 2 "car" 0.0083).humanPerPerson
      = 3.5607
    ∧ (calculateDetailedEmissionPerPerson 429 0.192 2 "car" 0.0083).totalPerPerson
      = 44.7447 := by
  obtain ⟨ht, hh, htot⟩ := calculateDetailedEmissionPerPerson_formula 429 0.192 2 "car"
    0.0083 (by norm_num) (by norm_num) (by norm_num) (by norm_num) (by decide)
  refine ⟨?_, ?_, ?_⟩
  · rw [ht]; norm_num
  · rw [hh]; norm_num
  · rw [htot, ht, hh]; norm_num

/-! ## Guards -/

/-- C3: when distance <= 0, or people < 1, or the transport factor is negative, or the
human respiration factor is negative, `calculateCO2Emission` returns 0 and
`calculateDetailedEmissionPerPerson` returns the all-zero breakdown, whatever the
transport id. -/
theorem zero_on_invalid_input (distance transportEmissionFactor people : ℚ)
    (transportId : String) (humanRespirationFactor : ℚ)
    (h : distance ≤ 0 ∨ people < 1 ∨ transportEmissionFactor < 0
      ∨ humanRespirationFactor < 0) :
    calculateCO2Emission distance transportEmissionFactor people transportId
        humanRespirationFactor = 0
    ∧ calculateDetailedEmissionPerPerson distance transportEmissionFactor people
        transportId humanRespirationFactor = ⟨0, 0, 0⟩ := by
  unfold calculateCO2Emission calculateDetailedEmissionPerPerson
  by_cases h1 : distance ≤ 0 ∨ people < 1
  · simp only [if_pos h1, and_self]
  · have h2 : transportEmissionFactor < 0 ∨ humanRespirationFactor < 0 := by tauto
    simp only [if_neg h1, if_pos h2, and_self]

/-- C3 at a negative human respiration factor with every other argument valid. -/
theorem zero_on_invalid_input_witness :
    calculateCO2Emission 429 0.192 2 "car" (-0.0083) = 0
    ∧ calculateDetailedEmissionPerPerson 429 0.192 2 "car" (-0.0083) = ⟨0, 0, 0⟩ :=
  zero_on_invalid_input 429 0.192 2 "car" (-0.0083)
    (Or.inr (Or.inr (Or.inr (by norm_num))))

/-- C4: for the transport id "walking", `calculateCO2Emission` returns 0 and
`calculateDetailedEmissionPerPerson` returns the all-zero breakdown for every distance,
transport factor, people count and human respiration factor. -/
theorem zero_on_walking (distance transportEmissionFactor people
    humanRespirationFactor : ℚ) :
    calculateCO2Emission distance transportEmissionFactor people "walking"
        humanRespirationFactor = 0
    ∧ calculateDetailedEmissionPerPerson distance transportEmissionFactor people
        "walking" humanRespirationFactor = ⟨0, 0, 0⟩ := by
  unfold calculateCO2Emission calculateDetailedEmissionPerPerson
  simp only [if_true, ite_self, and_self]

/-! ## validateCalculationParams -/

/-- C5: `validateCalculationParams` answers with the message of the first failing check:
an absent distance, then a negative distance, then a zero distance, then a negative
emission factor; otherwise the input is valid. The three distance cases hold for every
emission factor, so the distance message wins when both checks fail. -/
theorem validateCalculationParams_first_failing_check (d emissionFactor : ℚ) :
    validateCalculationParams none emissionFactor
      = ⟨false, "Não foi possível calcular a distância entre as cidades selecionadas."⟩
    ∧ (d < 0 → validateCalculationParams (some d) emissionFactor
        = ⟨false, "A distância não pode ser negativa."⟩)
    ∧ (d = 0 → validateCalculationParams (some d) emissionFactor
        = ⟨false, "A origem e o destino não podem ser a mesma cidade."⟩)
    ∧ (0 < d → emissionFactor < 0 → validateCalculationParams (some d) emissionFactor
        = ⟨false, "O fator de emissão não pode ser negativo."⟩)
    ∧ (0 < d → 0 ≤ emissionFactor → validateCalculationParams (some d) emissionFactor
        = ⟨true, ""⟩) := by
  refine ⟨rfl, ?_, ?_, ?_, ?_⟩
  · intro h
    simp only [validateCalculationParams, if_pos h]
  · intro h
    subst h
    simp only [validateCalculationParams, lt_irrefl, if_false, if_true]
  · intro h hf
    simp only [validateCalculationParams, if_neg (not_lt.mpr h.le), if_neg h.ne', if_pos hf]
  · intro h hf
    simp only [validateCalculationParams, if_neg (not_lt.mpr h.le), if_neg h.ne',
      if_neg (not_lt.mpr hf)]

/-- C5 where both the distance and the emission factor are negative (the distance
message is returned), and at the inputs (0, 0.1) and (100, 0) of the specification. -/
theorem validateCalculationParams_first_failing_check_witness :
    validateCalculationParams (some (-5)) (-1)
      = ⟨false, "A distância não pode ser negativa."⟩
    ∧ validateCalculationParams (some 0) 0.1
      = ⟨false, "A origem e o destino não podem ser a mesma cidade."⟩
    ∧ validateCalculationParams (some 100) 0 = ⟨true, ""⟩ :=
  ⟨(validateCalculationParams_first_failing_check (-5) (-1)).2.1 (by norm_num),
   (validateCalculationParams_first_failing_check 0 0.1).2.2.1 rfl,
   (validateCalculationParams_first_failing_check 100 0).2.2.2.2 (by norm_num)
     (le_refl 0)⟩

/-- C6: `validateCalculationParams` is valid exactly when the distance is present and
positive and the emission factor is not negative; an emission factor of exactly 0 is
accepted for every positive distance. -/
theorem validateCalculationParams_isValid_iff (distance : Option ℚ)
    (emissionFactor d : ℚ) :
    ((validateCalculationParams distance emissionFactor).isValid = true
      ↔ ∃ x, distance = some x ∧ 0 < x ∧ ¬ emissionFactor < 0)
    ∧ (0 < d → (validateCalculationParams (some d) 0).isValid = true) := by
  constructor
  · cases distance with
    | none => simp [validateCalculationParams]
    | some x =>
      unfold validateCalculationParams
      rcases lt_trichotomy x 0 with hx | hx | hx
      · simp [if_pos hx, not_lt.mpr hx.le]
      · subst hx
        simp
      · by_cases hf : emissionFactor < 0
        · simp [if_neg (not_lt.mpr hx.le), if_neg hx.ne', hf]
        · simp [if_neg (not_lt.mpr hx.le), if_neg hx.ne', hf, hx]
  · intro h
    simp [validateCalculationParams, if_neg (not_lt.mpr h.le), if_neg h.ne']

/-- C6 at the input (100, 0) of the specification. -/
theorem validateCalculationParams_isValid_iff_witness :
    (validateCalculationParams (some 100) 0).isValid = true :=
  (validateCalculationParams_isValid_iff none 0 100).2 (by norm_num)

/-! ## The message of a validation result -/

/-- C7: every result of `validateCalculationParams` and of `validateForm` has an empty
message when `isValid` is true and a non-empty message when `isValid` is false. -/
theorem validation_message_matches_isValid (distance : Option ℚ) (emissionFactor : ℚ)
    (getDistanceBetweenCapitals : String → String → Option ℚ) (dom : FormDom) :
    ((validateCalculationParams distance emissionFactor).isValid = true →
      (validateCalculationParams distance emissionFactor).message = "")
    ∧ ((validateCalculationParams distance emissionFactor).isValid = false →
      (validateCalculationParams distance emissionFactor).message ≠ "")
    ∧ ((validateForm getDistanceBetweenCapitals dom).isValid = true →
      (validateForm getDistanceBetweenCapitals dom).message = "")
    ∧ ((validateForm getDistanceBetweenCapitals dom).isValid = false →
      (validateForm getDistanceBetweenCapitals dom).message ≠ "") := by
  have hcalc : ((validateCalculationParams distance emissionFactor).isValid = true →
        (validateCalculationParams distance emissionFactor).message = "")
      ∧ ((validateCalculationParams distance emissionFactor).isValid = false →
        (validateCalculationParams distance emissionFactor).message ≠ "") := by
    cases distance with
    | none => simp [validateCalculationParams]
    | some x =>
      simp only [validateCalculationParams]
      split_ifs <;> simp
  have hform : ((validateForm getDistanceBetweenCapitals dom).isValid = true →
        (validateForm getDistanceBetweenCapitals dom).message = "")
      ∧ ((validateForm getDistanceBetweenCapitals dom).isValid = false →
        (validateForm getDistanceBetweenCapitals dom).message ≠ "") := by
    unfold validateForm
    cases getFormData getDistanceBetweenCapitals dom with
    | none => simp
    | some formData =>
      dsimp only
      split_ifs <;> simp
  exact ⟨hcalc.1, hcalc.2, hform.1, hform.2⟩

/-- C7 on a valid calculation (100 km, factor 0) and on a form whose people input holds
no number. -/
theorem validation_message_matches_isValid_witness :
    (validateCalculationParams (some 100) 0).message = ""
    ∧ (validateForm (fun _ _ => some 429)
        ⟨some "SP", some "RJ", some "car", some none⟩).message ≠ "" :=
  ⟨(validation_message_matches_isValid (some 100) 0 (fun _ _ => some 429)
      ⟨some "SP", some "RJ", some "car", some none⟩).1 (by decide),
   (validation_message_matches_isValid (some 100) 0 (fun _ _ => some 429)
      ⟨some "SP", some "RJ", some "car", some none⟩).2.2.2 (by decide)⟩

/-! ## Total against breakdown -/

/-- C8: for distance > 0, people >= 1, non-negative factors and a transport id other
than "walking", the total of `calculateCO2Emission` is transportPerPerson +
humanPerPerson * people of the breakdown on the same arguments; with people = 1 it is
transportPerPerson + humanPerPerson, which is totalPerPerson. -/
theorem calculateCO2Emission_eq_breakdown (distance transportEmissionFactor people : ℚ)
    (transportId : String) (humanRespirationFactor : ℚ)
    (hd : 0 < distance) (hp : 1 ≤ people) (hf : 0 ≤ transportEmissionFactor)
    (hh : 0 ≤ humanRespirationFactor) (hw : transportId ≠ "walking") :
    calculateCO2Emission distance transportEmissionFactor people transportId
        humanRespirationFactor
      = (calculateDetailedEmissionPerPerson distance transportEmissionFactor people
          transportId humanRespirationFactor).transportPerPerson
        + (calculateDetailedEmissionPerPerson distance transportEmissionFactor people
          transportId humanRespirationFactor).humanPerPerson * people
    ∧ (people = 1 →
      calculateCO2Emission distance transportEmissionFactor people transportId
          humanRespirationFactor
        = (calculateDetailedEmissionPerPerson distance transportEmissionFactor people
            transportId humanRespirationFactor).transportPerPerson
          + (calculateDetailedEmissionPerPerson distance transportEmissionFactor people
            transportId humanRespirationFactor).humanPerPerson
      ∧ calculateCO2Emission distance transportEmissionFactor people transportId
          humanRespirationFactor
        = (calculateDetailedEmissionPerPerson distance transportEmissionFactor people
            transportId humanRespirationFactor).totalPerPerson) := by
  unfold calculateCO2Emission calculateDetailedEmissionPerPerson
  rw [if_neg (by push_neg; exact ⟨hd, hp⟩), if_neg (by push_neg; exact ⟨hf, hh⟩),
    if_neg hw, if_neg (by push_neg; exact ⟨hd, hp⟩), if_neg (by push_neg; exact ⟨hf, hh⟩),
    if_neg hw]
  refine ⟨rfl, ?_⟩
  intro h1
  subst h1
  simp only [mul_one, and_self]

/-- C8 on 429 km by car: with 2 people the total 48.3054 is 41.184 + 3.5607 * 2, and
with 1 person the total is the totalPerPerson of the breakdown. -/
theorem calculateCO2Emission_eq_breakdown_witness :
    calculateCO2Emission 429 0.192 2 "car" 0.0083
      = (calculateDetailedEmissionPerPerson 429 0.192 2 "car" 0.0083).transportPerPerson
        + (calculateDetailedEmissionPerPerson 429 0.192 2 "car" 0.0083).humanPerPerson * 2
    ∧ calculateCO2Emission 429 0.192 1 "car" 0.0083
      = (calculateDetailedEmissionPerPerson 429 0.192 1 "car" 0.0083).totalPerPerson :=
  ⟨(calculateCO2Emission_eq_breakdown 429 0.192 2 "car" 0.0083 (by norm_num)
      (by norm_num) (by norm_num) (by norm_num) (by decide)).1,
   ((calculateCO2Emission_eq_breakdown 429 0.192 1 "car" 0.0083 (by norm_num)
      (by norm_num) (by norm_num) (by norm_num) (by decide)).2 rfl).2⟩

/-! ## More travellers -/

/-- C9 as stated fails: with transport factor 0 (a valid factor) the transport share
per person is 0 for 1 traveller and for 2, so it does not strictly decrease. -/
theorem transportPerPerson_not_strictly_decreasing :
    ¬ (∀ (distance transportEmissionFactor humanRespirationFactor : ℚ)
        (transportId : String) (p1 p2 : ℚ),
        0 < distance → 0 ≤ transportEmissionFactor → 0 ≤ humanRespirationFactor →
        transportId ≠ "walking" → 1 ≤ p1 → p1 < p2 →
        (calculateDetailedEmissionPerPerson distance transportEmissionFactor p2
            transportId humanRespirationFactor).transportPerPerson
          < (calculateDetailedEmissionPerPerson distance transportEmissionFactor p1
            transportId humanRespirationFactor).transportPerPerson
        ∧ (calculateDetailedEmissionPerPerson distance transportEmissionFactor p2
            transportId humanRespirationFactor).humanPerPerson
          = (calculateDetailedEmissionPerPerson distance transportEmissionFactor p1
            transportId humanRespirationFactor).humanPerPerson) := by
  intro h
  have h0 := (h 429 0 0.0083 "car" 1 2 (by norm_num) (le_refl 0) (by norm_num)
    (by decide) (le_refl 1) (by norm_num)).1
  norm_num [calculateDetailedEmissionPerPerson] at h0

/-- C9, amended: for distance > 0, non-negative factors, a transport id other than
"walking" and people counts 1 <= p1 < p2, the breakdown at p2 has the same
humanPerPerson as at p1; its transportPerPerson is strictly smaller when the transport
factor is positive, and is 0 at both counts when the transport factor is 0. -/
theorem transportPerPerson_decreasing_in_people
    (distance transportEmissionFactor humanRespirationFactor : ℚ)
    (transportId : String) (p1 p2 : ℚ)
    (hd : 0 < distance) (hf : 0 ≤ transportEmissionFactor)
    (hh : 0 ≤ humanRespirationFactor) (hw : transportId ≠ "walking")
    (h1 : 1 ≤ p1) (h12 : p1 < p2) :
    (calculateDetailedEmissionPerPerson distance transportEmissionFactor p2
        transportId humanRespirationFactor).humanPerPerson
      = (calculateDetailedEmissionPerPerson distance transportEmissionFactor p1
        transportId humanRespirationFactor).humanPerPerson
    ∧ (0 < transportEmissionFactor →
      (calculateDetailedEmissionPerPerson distance transportEmissionFactor p2
          transportId humanRespirationFactor).transportPerPerson
        < (calculateDetailedEmissionPerPerson distance transportEmissionFactor p1
          transportId humanRespirationFactor).transportPerPerson)
    ∧ (transportEmissionFactor = 0 →
      (calculateDetailedEmissionPerPerson distance transportEmissionFactor p2
          transportId humanRespirationFactor).transportPerPerson = 0
      ∧ (calculateDetailedEmissionPerPerson distance transportEmissionFactor p1
          transportId humanRespirationFactor).transportPerPerson = 0) := by
  have h2 : 1 ≤ p2 := le_trans h1 h12.le
  have hp1 : 0 < p1 := lt_of_lt_of_le one_pos h1
  unfold calculateDetailedEmissionPerPerson
  rw [if_neg (by push_neg; exact ⟨hd, h2⟩), if_neg (by push_neg; exact ⟨hf, hh⟩),
    if_neg hw, if_neg (by push_neg; exact ⟨hd, h1⟩), if_neg (by push_neg; exact ⟨hf, hh⟩),
    if_neg hw]
  refine ⟨rfl, ?_, ?_⟩
  · intro hpos
    exact div_lt_div_of_pos_left (mul_pos hd hpos) hp1 h12
  · intro hzero
    subst hzero
    simp only [mul_zero, zero_div, and_self]

/-- C9, amended, on 429 km by car: going from 2 to 3 travellers lowers the transport
share per person from 41.184 to 27.456 and leaves the human share unchanged. -/
theorem transportPerPerson_decreasing_in_people_witness :
    (calculateDetailedEmissionPerPerson 429 0.192 3 "car" 0.0083).humanPerPerson
      = (calculateDetailedEmissionPerPerson 429 0.192 2 "car" 0.0083).humanPerPerson
    ∧ (calculateDetailedEmissionPerPerson 429 0.192 3 "car" 0.0083).transportPerPerson
      < (calculateDetailedEmissionPerPerson 429 0.192 2 "car" 0.0083).transportPerPerson :=
  ⟨(transportPerPerson_decreasing_in_people 429 0.192 0.0083 "car" 2 3 (by norm_num)
      (by norm_num) (by norm_num) (by decide) (by norm_num) (by norm_num)).1,
   (transportPerPerson_decreasing_in_people 429 0.192 0.0083 "car" 2 3 (by norm_num)
      (by norm_num) (by norm_num) (by decide) (by norm_num) (by norm_num)).2.1
      (by norm_num)⟩

/-! ## Non-negative results -/

/-- On numbers, the value of `calculateCO2Emission` is >= 0 and the three fields of the
breakdown of `calculateDetailedEmissionPerPerson` are >= 0. -/
theorem emission_nonneg (distance transportEmissionFactor people : ℚ)
    (transportId : String) (humanRespirationFactor : ℚ) :
    0 ≤ calculateCO2Emission distance transportEmissionFactor people transportId
        humanRespirationFactor
    ∧ 0 ≤ (calculateDetailedEmissionPerPerson distance transportEmissionFactor people
        transportId humanRespirationFactor).transportPerPerson
    ∧ 0 ≤ (calculateDetailedEmissionPerPerson distance transportEmissionFactor people
        transportId humanRespirationFactor).humanPerPerson
    ∧ 0 ≤ (calculateDetailedEmissionPerPerson distance transportEmissionFactor people
        transportId humanRespirationFactor).totalPerPerson := by
  unfold calculateCO2Emission calculateDetailedEmissionPerPerson
  by_cases h1 : distance ≤ 0 ∨ people < 1
  · simp only [if_pos h1, le_refl, and_self]
  by_cases h2 : transportEmissionFactor < 0 ∨ humanRespirationFactor < 0
  · simp only [if_neg h1, if_pos h2, le_refl, and_self]
  by_cases h3 : transportId = "walking"
  · simp only [if_neg h1, if_neg h2, if_pos h3, le_refl, and_self]
  simp only [if_neg h1, if_neg h2, if_neg h3]
  push_neg at h1 h2
  obtain ⟨hd, hp⟩ := h1
  obtain ⟨hf, hh⟩ := h2
  have hp0 : 0 ≤ people := le_trans zero_le_one hp
  have ht : 0 ≤ distance * transportEmissionFactor / people :=
    div_nonneg (mul_nonneg hd.le hf) hp0
  have hhum : 0 ≤ distance * humanRespirationFactor := mul_nonneg hd.le hh
  exact ⟨add_nonneg ht (mul_nonneg hhum hp0), ht, hhum, add_nonneg ht hhum⟩

/-- On numbers, `calculateCO2EmissionNaN` and `calculateDetailedEmissionPerPersonNaN`
are `calculateCO2Emission` and `calculateDetailedEmissionPerPerson`. -/
theorem calculation_on_numbers (distance transportEmissionFactor people : ℚ)
    (transportId : String) (humanRespirationFactor : ℚ) :
    calculateCO2EmissionNaN (some distance) (some transportEmissionFactor) (some people)
        transportId (some humanRespirationFactor)
      = some (calculateCO2Emission distance transportEmissionFactor people transportId
          humanRespirationFactor)
    ∧ calculateDetailedEmissionPerPersonNaN (some distance) (some transportEmissionFactor)
        (some people) transportId (some humanRespirationFactor)
      = ⟨some (calculateDetailedEmissionPerPerson distance transportEmissionFactor people
            transportId humanRespirationFactor).transportPerPerson,
         some (calculateDetailedEmissionPerPerson distance transportEmissionFactor people
            transportId humanRespirationFactor).humanPerPerson,
         some (calculateDetailedEmissionPerPerson distance transportEmissionFactor people
            transportId humanRespirationFactor).totalPerPerson⟩ := by
  unfold calculateCO2EmissionNaN calculateDetailedEmissionPerPersonNaN
    calculateCO2Emission calculateDetailedEmissionPerPerson
  by_cases h1 : distance ≤ 0 ∨ people < 1
  · simp [jsLe, jsLt, h1]
  by_cases h2 : transportEmissionFactor < 0 ∨ humanRespirationFactor < 0
  · simp [jsLe, jsLt, h1, h2]
  by_cases h3 : transportId = "walking"
  · simp [jsLe, jsLt, h1, h2, h3]
  · simp [jsLe, jsLt, jsArith, h1, h2, h3]

/-- C10 as stated fails: with `NaN` as the distance no guard fires, since every
comparison with `NaN` is false, and the value of `calculateCO2Emission` and the three
fields of the breakdown are `NaN`, which is not >= 0. -/
theorem emission_not_nonneg_on_nan :
    ¬ (∀ (distance transportEmissionFactor people : Option ℚ) (transportId : String)
        (humanRespirationFactor : Option ℚ),
        jsLe (some 0) (calculateCO2EmissionNaN distance transportEmissionFactor people
          transportId humanRespirationFactor) = true
        ∧ jsLe (some 0) (calculateDetailedEmissionPerPersonNaN distance
            transportEmissionFactor people transportId
            humanRespirationFactor).transportPerPerson = true
        ∧ jsLe (some 0) (calculateDetailedEmissionPerPersonNaN distance
            transportEmissionFactor people transportId
            humanRespirationFactor).humanPerPerson = true
        ∧ jsLe (some 0) (calculateDetailedEmissionPerPersonNaN distance
            transportEmissionFactor people transportId
            humanRespirationFactor).totalPerPerson = true) := by
  intro h
  have h0 := (h none (some 0.192) (some 2) "car" (some 0.0083)).1
  have hnan : calculateCO2EmissionNaN none (some 0.192) (some 2) "car" (some 0.0083)
      = none := by
    simp [calculateCO2EmissionNaN, jsLe, jsLt, jsArith]
    norm_num
  rw [hnan] at h0
  simp [jsLe] at h0

/-- The factor that `handleFormSubmit` passes for the transport id "toString" converts
to `NaN`, and the calculation on 429 km with 2 people then gives `NaN`. -/
theorem calculation_on_inherited_factor :
    calculateCO2EmissionNaN (some 429) (JsValue.inherited "toString").toNumber (some 2)
      "toString" (some 0.0083) = none := by
  simp [calculateCO2EmissionNaN, JsValue.toNumber, jsLe, jsLt, jsArith]
  norm_num

/-- C10, amended: for every transport id and every distance, transport factor, people
count and human respiration factor that are numbers (not `NaN`), the code returns the
values of the exact arithmetic, the value of `calculateCO2Emission` is >= 0 and the three
fields of the breakdown of `calculateDetailedEmissionPerPerson` are >= 0. -/
theorem emission_nonneg_on_numbers (distance transportEmissionFactor people : ℚ)
    (transportId : String) (humanRespirationFactor : ℚ) :
    (∃ total : ℚ,
      calculateCO2EmissionNaN (some distance) (some transportEmissionFactor) (some people)
          transportId (some humanRespirationFactor) = some total
      ∧ total = calculateCO2Emission distance transportEmissionFactor people transportId
          humanRespirationFactor
      ∧ 0 ≤ total)
    ∧ (∃ transportPerPerson humanPerPerson totalPerPerson : ℚ,
      calculateDetailedEmissionPerPersonNaN (some distance) (some transportEmissionFactor)
          (some people) transportId (some humanRespirationFactor)
        = ⟨some transportPerPerson, some humanPerPerson, some totalPerPerson⟩
      ∧ calculateDetailedEmissionPerPerson distance transportEmissionFactor people
          transportId humanRespirationFactor
        = ⟨transportPerPerson, humanPerPerson, totalPerPerson⟩
      ∧ 0 ≤ transportPerPerson ∧ 0 ≤ humanPerPerson ∧ 0 ≤ totalPerPerson) := by
  have hnum := calculation_on_numbers distance transportEmissionFactor people transportId
    humanRespirationFactor
  have hpos := emission_nonneg distance transportEmissionFactor people transportId
    humanRespirationFactor
  exact ⟨⟨_, hnum.1, rfl, hpos.1⟩,
    ⟨_, _, _, hnum.2, rfl, hpos.2.1, hpos.2.2.1, hpos.2.2.2⟩⟩

/-! ## Formatting -/

/-- Text of `toFixed` for a non-negative value below 10^21, once the rounded count of
units is known. -/
theorem toFixed_of_round (render : ℚ → String) (x : ℚ) (f : Nat) (n : ℤ)
    (hf : f ≤ 100) (h0 : 0 ≤ x) (h21 : x < 10 ^ 21) (hn : ⌊x * 10 ^ f + 1 / 2⌋ = n) :
    toFixed render x f = .ok (fixedDigits n.toNat f) := by
  unfold toFixed
  rw [if_neg (not_lt.mpr hf)]
  simp only [if_neg (not_lt.mpr h0), if_neg (not_le.mpr h21), hn, String.empty_append]

/-- Text of `formatEmission` with 2 decimals for a positive value below 10^21, once the
rounded count of hundredths is known. -/
theorem formatEmission_of_round (render : ℚ → String) (x : ℚ) (n : ℤ)
    (h0 : 0 < x) (h21 : x < 10 ^ 21) (hn : ⌊x * 10 ^ 2 + 1 / 2⌋ = n) :
    formatEmission render x (some 2) = .ok (fixedDigits n.toNat 2 ++ " kg CO₂") := by
  unfold formatEmission
  simp only [Option.getD_some, if_neg h0.ne']
  rw [toFixed_of_round render x 2 n (by norm_num) h0.le h21 hn]
  rfl

/-- C11 as stated fails: a digit count above 100 with a non-zero value makes `toFixed`
throw `RangeError`, so `formatEmission` does not return a text for every non-zero
value and every digit count. -/
theorem formatEmission_not_always_text :
    ¬ (∀ (render : ℚ → String) (value : ℚ) (decimals : Option Nat), value ≠ 0 →
        ∃ formatted : String,
          formatEmission render value decimals = .ok (formatted ++ " kg CO₂")) := by
  intro h
  obtain ⟨formatted, hf⟩ := h unusedRender 1 (some 101) (by norm_num)
  have herr : formatEmission unusedRender 1 (some 101) = .error "RangeError" := by
    simp [formatEmission, toFixed]
    rfl
  rw [herr] at hf
  cases hf

/-- C11, amended: `formatEmission` returns exactly "0 kg CO₂" for the value 0, whatever
the digit count; for every other value and a digit count `d` from 0 to 100 (2 when
omitted) it returns the value fixed to `d` decimal places followed by " kg CO₂": a
minus sign for a negative value, then the count of units of `10^-d` nearest to the
magnitude, a half going up, written with `d` digits after the point (from 10^21 up,
the plain rendering of the magnitude); for a digit count above 100 and a non-zero
value it throws `RangeError`. -/
theorem formatEmission_fixed_up_to_100 (render : ℚ → String) (value : ℚ)
    (decimals : Option Nat) (d : Nat) :
    formatEmission render 0 decimals = .ok "0 kg CO₂"
    ∧ (value ≠ 0 → d ≤ 100 →
        formatEmission render value (some d)
          = .ok (((if value < 0 then "-" else "")
              ++ (if |value| ≥ 10 ^ 21 then numberToString render |value|
                  else fixedDigits ⌊|value| * 10 ^ d + 1 / 2⌋.toNat d))
              ++ " kg CO₂"))
    ∧ formatEmission render value none = formatEmission render value (some 2)
    ∧ (value ≠ 0 → 100 < d → formatEmission render value (some d) = .error "RangeError") := by
  refine ⟨?_, ?_, rfl, ?_⟩
  · simp only [formatEmission, if_true]
  · intro hv hd
    have habs : (if value < 0 then -value else value) = |value| := by
      split_ifs with hneg
      · exact (abs_of_neg hneg).symm
      · exact (abs_of_nonneg (not_lt.mp hneg)).symm
    simp only [formatEmission, Option.getD_some, if_neg hv, toFixed,
      if_neg (not_lt.mpr hd), habs]
    rfl
  · intro hv hd
    simp only [formatEmission, Option.getD_some, if_neg hv, toFixed, if_pos hd]
    rfl

/-- C11, amended, at the value 0 with no digit count, at 41.25 with the default 2
digits, and at -82.375 with 2 digits. -/
theorem formatEmission_fixed_up_to_100_witness :
    formatEmission unusedRender 0 none = .ok "0 kg CO₂"
    ∧ formatEmission unusedRender 41.25 none = .ok "41.25 kg CO₂"
    ∧ formatEmission unusedRender (-82.375) (some 2) = .ok "-82.38 kg CO₂" := by
  have h1 := formatEmission_fixed_up_to_100 unusedRender 41.25 none 2
  have h2 := formatEmission_fixed_up_to_100 unusedRender (-82.375) none 2
  refine ⟨h1.1, ?_, ?_⟩
  · rw [h1.2.2.1, h1.2.1 (by norm_num) (by norm_num)]
    have hn : ⌊|(41.25 : ℚ)| * 10 ^ 2 + 1 / 2⌋ = 4125 := by
      rw [abs_of_pos (by norm_num), Int.floor_eq_iff]; norm_num
    rw [hn, if_neg (by norm_num), if_neg (by rw [abs_of_pos (by norm_num)]; norm_num)]
    exact congrArg Except.ok (by decide)
  · rw [h2.2.1 (by norm_num) (by norm_num)]
    have hn : ⌊|(-82.375 : ℚ)| * 10 ^ 2 + 1 / 2⌋ = 8238 := by
      rw [abs_of_neg (by norm_num), Int.floor_eq_iff]; norm_num
    rw [hn, if_pos (by norm_num), if_neg (by rw [abs_of_neg (by norm_num)]; norm_num)]
    exact congrArg Except.ok (by decide)

/-- The numeral 82.345 denotes the binary64 value 2897257119654871 / 2^45. -/
theorem binary64_82_345 : binary64 82.345 = 2897257119654871 / 35184372088832 := by
  have hlog : Int.log 2 |(82.345 : ℚ)| = 6 := by
    rw [abs_of_pos (by norm_num)]
    apply le_antisymm
    · have h7 := (Int.lt_zpow_iff_log_lt (b := 2) (by norm_num) (x := 7)
        (r := (82.345 : ℚ)) (by norm_num)).mp (by norm_num)
      omega
    · exact (Int.zpow_le_iff_le_log (b := 2) (by norm_num) (x := 6)
        (r := (82.345 : ℚ)) (by norm_num)).mp (by norm_num)
  have hfl : ⌊(82.345 : ℚ) / 2 ^ (6 - 52 : ℤ)⌋ = 5794514239309742 := by
    rw [Int.floor_eq_iff]; norm_num
  unfold binary64 roundHalfEven
  rw [if_neg (by norm_num)]
  simp only [hlog, hfl]
  norm_num

/-- The number 82.375 is a binary64 value: the numeral denotes it exactly. -/
theorem binary64_82_375 : binary64 82.375 = 82.375 := by
  have hlog : Int.log 2 |(82.375 : ℚ)| = 6 := by
    rw [abs_of_pos (by norm_num)]
    apply le_antisymm
    · have h7 := (Int.lt_zpow_iff_log_lt (b := 2) (by norm_num) (x := 7)
        (r := (82.375 : ℚ)) (by norm_num)).mp (by norm_num)
      omega
    · exact (Int.zpow_le_iff_le_log (b := 2) (by norm_num) (x := 6)
        (r := (82.375 : ℚ)) (by norm_num)).mp (by norm_num)
  have hfl : ⌊(82.375 : ℚ) / 2 ^ (6 - 52 : ℤ)⌋ = 5796625301635072 := by
    rw [Int.floor_eq_iff]; norm_num
  unfold binary64 roundHalfEven
  rw [if_neg (by norm_num)]
  simp only [hlog, hfl]
  norm_num

/-- Text of `formatEmission` with 2 decimals on the binary64 value of the numeral
82.345. -/
theorem formatEmission_82_345 (render : ℚ → String) :
    formatEmission render (binary64 82.345) (some 2) = .ok "82.34 kg CO₂" := by
  have hn : ⌊(2897257119654871 / 35184372088832 : ℚ) * 10 ^ 2 + 1 / 2⌋ = 8234 := by
    rw [Int.floor_eq_iff]; norm_num
  rw [binary64_82_345, formatEmission_of_round render _ 8234 (by norm_num) (by norm_num) hn]
  exact congrArg Except.ok (by decide)

/-- C12 as stated fails: on the number that the numeral 82.345 denotes,
`formatEmission` with 2 decimals does not return "82.35 kg CO₂". -/
theorem formatEmission_82_345_not_82_35 :
    ¬ (∀ render : ℚ → String,
        formatEmission render (binary64 82.345) (some 2) = .ok "82.35 kg CO₂") := by
  intro h
  have h1 := h unusedRender
  rw [formatEmission_82_345] at h1
  exact absurd (Except.ok.inj h1) (by decide)

/-- C12, amended: with 2 decimals `formatEmission` writes, for a positive value below
10^21, the count `n` of hundredths nearest to the value the number holds, an exact
half going up: 100 x - 1/2 < n <= 100 x + 1/2. The numeral 82.345 denotes a binary64
value below 82.345, and `formatEmission` gives "82.34 kg CO₂" for it. -/
theorem formatEmission_rounds_stored_value (render : ℚ → String) (x : ℚ)
    (h0 : 0 < x) (h21 : x < 10 ^ 21) :
    (formatEmission render x (some 2)
        = .ok (fixedDigits ⌊x * 10 ^ 2 + 1 / 2⌋.toNat 2 ++ " kg CO₂")
      ∧ x * 10 ^ 2 - 1 / 2 < (⌊x * 10 ^ 2 + 1 / 2⌋.toNat : ℚ)
      ∧ (⌊x * 10 ^ 2 + 1 / 2⌋.toNat : ℚ) ≤ x * 10 ^ 2 + 1 / 2)
    ∧ binary64 82.345 < 82.345
    ∧ formatEmission render (binary64 82.345) (some 2) = .ok "82.34 kg CO₂" := by
  refine ⟨⟨formatEmission_of_round render x _ h0 h21 rfl, ?_, ?_⟩, ?_,
    formatEmission_82_345 render⟩
  · have hnn : (0 : ℤ) ≤ ⌊x * 10 ^ 2 + 1 / 2⌋ := Int.floor_nonneg.mpr (by positivity)
    have hcast : ((⌊x * 10 ^ 2 + 1 / 2⌋.toNat : ℤ) : ℚ) = (⌊x * 10 ^ 2 + 1 / 2⌋ : ℚ) := by
      rw [Int.toNat_of_nonneg hnn]
    have hlt := Int.lt_floor_add_one (x * 10 ^ 2 + 1 / 2)
    rw [← hcast] at hlt
    push_cast at hlt
    linarith
  · have hnn : (0 : ℤ) ≤ ⌊x * 10 ^ 2 + 1 / 2⌋ := Int.floor_nonneg.mpr (by positivity)
    have hcast : ((⌊x * 10 ^ 2 + 1 / 2⌋.toNat : ℤ) : ℚ) = (⌊x * 10 ^ 2 + 1 / 2⌋ : ℚ) := by
      rw [Int.toNat_of_nonneg hnn]
    have hle := Int.floor_le (x * 10 ^ 2 + 1 / 2)
    rw [← hcast] at hle
    push_cast at hle
    linarith
  · rw [binary64_82_345]; norm_num

/-- C12, amended, at the exact half case 82.375, which is a binary64 value: the text is
"82.38 kg CO₂". -/
theorem formatEmission_rounds_stored_value_witness :
    binary64 82.375 = 82.375
    ∧ formatEmission unusedRender 82.375 (some 2) = .ok "82.38 kg CO₂"
    ∧ formatEmission unusedRender (binary64 82.345) (some 2) = .ok "82.34 kg CO₂" := by
  have h := formatEmission_rounds_stored_value unusedRender 82.375 (by norm_num)
    (by norm_num)
  have hn : ⌊(82.375 : ℚ) * 10 ^ 2 + 1 / 2⌋ = 8238 := by
    rw [Int.floor_eq_iff]; norm_num
  refine ⟨binary64_82_375, ?_, h.2.2⟩
  rw [h.1.1, hn]
  exact congrArg Except.ok (by decide)

/-- C13: `formatDistance` returns "0 km" for every distance <= 0, negative ones
included, and for every distance > 0 the plain rendering of the number followed by
" km", with no decimal formatting; for a whole number of kilometres below 2^53 the
rendering is its decimal digits. -/
theorem formatDistance_zero_or_plain (render : ℚ → String) (distance : ℚ) (n : ℕ) :
    (distance ≤ 0 → formatDistance render distance = "0 km")
    ∧ (0 < distance →
        formatDistance render distance = numberToString render distance ++ " km")
    ∧ (0 < n → n < 2 ^ 53 → formatDistance render (n : ℚ) = toString n ++ " km") := by
  refine ⟨?_, ?_, ?_⟩
  · intro h
    simp only [formatDistance, if_pos h]
  · intro h
    simp only [formatDistance, if_neg (not_le.mpr h)]
  · intro h0 h53
    have hq : (0 : ℚ) < (n : ℚ) := by exact_mod_cast h0
    have habs : |(n : ℚ)| < 2 ^ 53 := by
      rw [abs_of_pos hq]
      exact_mod_cast h53
    simp only [formatDistance, if_neg (not_le.mpr hq), numberToString, Rat.den_natCast,
      habs, and_self, if_true, Rat.num_natCast]
    rfl

/-- C13 at the distances 0, -3 and 429. -/
theorem formatDistance_zero_or_plain_witness :
    formatDistance unusedRender 0 = "0 km"
    ∧ formatDistance unusedRender (-3) = "0 km"
    ∧ formatDistance unusedRender 429 = "429 km" := by
  refine ⟨(formatDistance_zero_or_plain unusedRender 0 429).1 (le_refl 0),
    (formatDistance_zero_or_plain unusedRender (-3) 429).1 (by norm_num), ?_⟩
  have h := (formatDistance_zero_or_plain unusedRender 0 429).2.2 (by norm_num)
    (by norm_num)
  rw [show ((429 : ℕ) : ℚ) = 429 by norm_num] at h
  rw [h]
  decide

/-! ## Trees -/

/-- C14: `calculateTreesNeeded emission` is the ceiling of emission / 22, which is the
least integer n with 22 * n >= emission. -/
theorem calculateTreesNeeded_least (emission : ℚ) :
    calculateTreesNeeded emission = ⌈emission / 22⌉
    ∧ emission ≤ 22 * (calculateTreesNeeded emission : ℚ)
    ∧ ∀ m : ℤ, emission ≤ 22 * (m : ℚ) → calculateTreesNeeded emission ≤ m := by
  refine ⟨rfl, ?_, ?_⟩
  · have h := Int.le_ceil (emission / 22)
    have h22 : (0 : ℚ) < 22 := by norm_num
    calc emission = 22 * (emission / 22) := by field_simp
      _ ≤ 22 * (⌈emission / 22⌉ : ℚ) := by linarith
  · intro m hm
    apply Int.ceil_le.mpr
    rw [div_le_iff₀ (by norm_num : (0 : ℚ) < 22)]
    linarith

/-- C14 at the emissions 44, 22 and 23: 2, 1 and 2 trees. -/
theorem calculateTreesNeeded_least_witness :
    calculateTreesNeeded 44 = 2 ∧ calculateTreesNeeded 22 = 1
    ∧ calculateTreesNeeded 23 = 2 := by
  refine ⟨?_, ?_, ?_⟩
  · apply le_antisymm ((calculateTreesNeeded_least 44).2.2 2 (by norm_num))
    have h := (calculateTreesNeeded_least 44).2.1
    have h2 : ((1 : ℤ) : ℚ) < (calculateTreesNeeded 44 : ℚ) := by push_cast; linarith
    have h3 : (1 : ℤ) < calculateTreesNeeded 44 := by exact_mod_cast h2
    omega
  · apply le_antisymm ((calculateTreesNeeded_least 22).2.2 1 (by norm_num))
    have h := (calculateTreesNeeded_least 22).2.1
    have h2 : ((0 : ℤ) : ℚ) < (calculateTreesNeeded 22 : ℚ) := by push_cast; linarith
    have h3 : (0 : ℤ) < calculateTreesNeeded 22 := by exact_mod_cast h2
    omega
  · apply le_antisymm ((calculateTreesNeeded_least 23).2.2 2 (by norm_num))
    have h := (calculateTreesNeeded_least 23).2.1
    have h2 : ((1 : ℤ) : ℚ) < (calculateTreesNeeded 23 : ℚ) := by push_cast; linarith
    have h3 : (1 : ℤ) < calculateTreesNeeded 23 := by exact_mod_cast h2
    omega

/-! ## The transport catalogue -/

/-- C15: `getEmissionFactor` returns the entry of `EMISSION_FACTORS` for each of the ten
catalogued identifiers and 0 for an identifier such as "bicycle"; but for "toString",
which is not in the table, the read finds the member inherited from `Object.prototype`,
which is truthy, and `getEmissionFactor` returns that member instead of 0. -/
theorem getEmissionFactor_values :
    getEmissionFactor "car" = .number 0.192
    ∧ getEmissionFactor "car_electric" = .number 0.05
    ∧ getEmissionFactor "motorcycle" = .number 0.113
    ∧ getEmissionFactor "bus" = .number 0.089
    ∧ getEmissionFactor "train" = .number 0.014
    ∧ getEmissionFactor "walking" = .number 0
    ∧ getEmissionFactor "plane_domestic" = .number 0.255
    ∧ getEmissionFactor "plane_international" = .number 0.195
    ∧ getEmissionFactor "ship" = .number 0.019
    ∧ getEmissionFactor "ferry" = .number 0.018
    ∧ getEmissionFactor "bicycle" = .number 0
    ∧ EMISSION_FACTORS.lookup "toString" = none
    ∧ getEmissionFactor "toString" = .inherited "toString"
    ∧ getEmissionFactor "toString" ≠ .number 0 := by
  refine ⟨?_, ?_, ?_, ?_, ?_, ?_, ?_, ?_, ?_, ?_, ?_, ?_, ?_, ?_⟩ <;>
    simp [getEmissionFactor, emissionFactorsGet, EMISSION_FACTORS, objectPrototypeKeys,
      List.lookup, JsValue.truthy] <;> norm_num

/-- C16: the ids listed by `getTransportTypes` are the ten identifiers of the catalogue,
pairwise distinct, and are exactly the keys of `EMISSION_FACTORS`; every factor of the
table is non-negative, 0 for "walking" and strictly positive for every other id. -/
theorem transport_catalogue :
    getTransportTypes.map (fun t => t.id)
      = ["car", "car_electric", "motorcycle", "bus", "train", "walking",
         "plane_domestic", "plane_international", "ship", "ferry"]
    ∧ (getTransportTypes.map (fun t => t.id)).length = 10
    ∧ (getTransportTypes.map (fun t => t.id)).Nodup
    ∧ getTransportTypes.map (fun t => t.id) = EMISSION_FACTORS.map (fun e => e.1)
    ∧ ∀ id factor, (id, factor) ∈ EMISSION_FACTORS →
        0 ≤ factor ∧ (id = "walking" → factor = 0) ∧ (id ≠ "walking" → 0 < factor) := by
  refine ⟨by decide, by decide, by decide, by decide, ?_⟩
  intro id factor h
  simp only [EMISSION_FACTORS, List.mem_cons, Prod.mk.injEq, List.mem_singleton,
    List.not_mem_nil, or_false] at h
  rcases h with h | h | h | h | h | h | h | h | h | h <;> obtain ⟨rfl, rfl⟩ := h <;>
    refine ⟨by norm_num, ?_, ?_⟩ <;> intro hw <;> first
      | exact absurd hw (by decide)
      | exact absurd rfl hw
      | norm_num

/-- C16 at the entries of "car" and of "walking". -/
theorem transport_catalogue_witness :
    ("car", (0.192 : ℚ)) ∈ EMISSION_FACTORS ∧ (0 : ℚ) < 0.192
    ∧ ("walking", (0 : ℚ)) ∈ EMISSION_FACTORS :=
  ⟨by simp [EMISSION_FACTORS],
   (transport_catalogue.2.2.2.2 "car" 0.192 (by simp [EMISSION_FACTORS])).2.2 (by decide),
   by simp [EMISSION_FACTORS]⟩

/-! ## validateForm -/

/-- C17: on a form whose four controls exist, with values origin, destination, transport
id and parsed people count, `validateForm` is valid exactly when the three texts are
non-empty, origin differs from destination, the looked-up distance is present and the
people count is an integer with 1 <= people <= 1000. With the other fields in order,
1000 people are accepted and 1001 are rejected. -/
theorem validateForm_isValid_iff
    (getDistanceBetweenCapitals : String → String → Option ℚ)
    (origin destination transportId : String) (parsed : Option Int) :
    ((validateForm getDistanceBetweenCapitals
        ⟨some origin, some destination, some transportId, some parsed⟩).isValid = true
      ↔ origin ≠ "" ∧ destination ≠ "" ∧ transportId ≠ "" ∧ origin ≠ destination
        ∧ getDistanceBetweenCapitals origin destination ≠ none
        ∧ ∃ people : Int, parsed = some people ∧ 1 ≤ people ∧ people ≤ 1000)
    ∧ (origin ≠ "" → destination ≠ "" → transportId ≠ "" → origin ≠ destination →
        getDistanceBetweenCapitals origin destination ≠ none →
        (validateForm getDistanceBetweenCapitals
          ⟨some origin, some destination, some transportId, some (some 1000)⟩).isValid
          = true
        ∧ (validateForm getDistanceBetweenCapitals
          ⟨some origin, some destination, some transportId, some (some 1001)⟩).isValid
          = false) := by
  have key : ∀ p : Option Int,
      ((validateForm getDistanceBetweenCapitals
          ⟨some origin, some destination, some transportId, some p⟩).isValid = true
        ↔ origin ≠ "" ∧ destination ≠ "" ∧ transportId ≠ "" ∧ origin ≠ destination
          ∧ getDistanceBetweenCapitals origin destination ≠ none
          ∧ ∃ people : Int, p = some people ∧ 1 ≤ people ∧ people ≤ 1000) := by
    intro p
    cases p with
    | none => simp [validateForm, getFormData]
    | some people =>
      by_cases ho : origin = ""
      · simp [validateForm, getFormData, truthyStr, ho]
      by_cases hd : destination = ""
      · simp [validateForm, getFormData, truthyStr, hd]
      by_cases ht : transportId = ""
      · simp [validateForm, getFormData, truthyStr, ht]
      by_cases hp : people < 1
      · have hp2 : ¬ (1 ≤ people) := not_le.mpr hp
        simp [validateForm, getFormData, truthyStr, hp, hp2]
      have hp0 : people ≠ 0 := by omega
      have hp1 : 1 ≤ people := by omega
      by_cases hod : origin = destination
      · simp [validateForm, getFormData, truthyStr, ho, hd, ht, hp, hp0, hod]
      by_cases hdist : getDistanceBetweenCapitals origin destination = none
      · simp [validateForm, getFormData, truthyStr, ho, hd, ht, hp, hp0, hod, hdist]
      by_cases hbig : people > 1000
      · have hbig2 : ¬ (people ≤ 1000) := not_le.mpr hbig
        simp [validateForm, getFormData, truthyStr, ho, hd, ht, hp, hp0, hod, hdist,
          hbig, hbig2]
      · have hbig2 : people ≤ 1000 := not_lt.mp hbig
        simp [validateForm, getFormData, truthyStr, ho, hd, ht, hp, hp0, hod, hdist,
          hbig, hbig2, hp1]
  refine ⟨key parsed, ?_⟩
  intro ho hd ht hod hdist
  constructor
  · exact (key (some 1000)).mpr ⟨ho, hd, ht, hod, hdist, 1000, rfl, by norm_num, le_refl _⟩
  · cases hv : (validateForm getDistanceBetweenCapitals
        ⟨some origin, some destination, some transportId, some (some 1001)⟩).isValid with
    | false => rfl
    | true =>
      obtain ⟨_, _, _, _, _, n, hn, _, hle⟩ := (key (some 1001)).mp hv
      have h1001 : (1001 : Int) = n := Option.some.inj hn
      omega

/-- C17 on a form from "SP" to "RJ" by car with a known distance: 1000 people are
accepted, 1001 are rejected, and a people field holding no number is rejected. -/
theorem validateForm_isValid_iff_witness :
    (validateForm (fun _ _ => some 429)
        ⟨some "SP", some "RJ", some "car", some (some 1000)⟩).isValid = true
    ∧ (validateForm (fun _ _ => some 429)
        ⟨some "SP", some "RJ", some "car", some (some 1001)⟩).isValid = false
    ∧ ¬ (validateForm (fun _ _ => some 429)
        ⟨some "SP", some "RJ", some "car", some none⟩).isValid = true := by
  have h := validateForm_isValid_iff (fun _ _ => some 429) "SP" "RJ" "car" none
  obtain ⟨h1000, h1001⟩ := h.2 (by decide) (by decide) (by decide) (by decide) (by simp)
  refine ⟨h1000, h1001, ?_⟩
  intro hv
  obtain ⟨_, _, _, _, _, n, hn, _⟩ := h.1.mp hv
  cases hn

/-! ## No failing division -/

/-- C18: the two calculation functions return a value for every numeric input, and
their division is executed only with people >= 1: with the division replaced by one
that fails on a divisor below 1 (as it does on 0), both functions still return, and
return the same value as the source functions. -/
theorem calculation_never_fails (distance transportEmissionFactor people : ℚ)
    (transportId : String) (humanRespirationFactor : ℚ) :
    divideFrom1 (distance * transportEmissionFactor) 0 = .error "divisor below 1"
    ∧ calculateCO2EmissionChecked distance transportEmissionFactor people transportId
        humanRespirationFactor
      = .ok (calculateCO2Emission distance transportEmissionFactor people transportId
          humanRespirationFactor)
    ∧ calculateDetailedEmissionPerPersonChecked distance transportEmissionFactor people
        transportId humanRespirationFactor
      = .ok (calculateDetailedEmissionPerPerson distance transportEmissionFactor people
          transportId humanRespirationFactor) := by
  refine ⟨?_, ?_, ?_⟩
  · simp [divideFrom1]
  · unfold calculateCO2EmissionChecked calculateCO2Emission
    by_cases h1 : distance ≤ 0 ∨ people < 1
    · simp only [if_pos h1]
    by_cases h2 : transportEmissionFactor < 0 ∨ humanRespirationFactor < 0
    · simp only [if_neg h1, if_pos h2]
    by_cases h3 : transportId = "walking"
    · simp only [if_neg h1, if_neg h2, if_pos h3]
    have hp : ¬ people < 1 := fun h => h1 (Or.inr h)
    simp only [if_neg h1, if_neg h2, if_neg h3, divideFrom1, if_neg hp]
    rfl
  · unfold calculateDetailedEmissionPerPersonChecked calculateDetailedEmissionPerPerson
    by_cases h1 : distance ≤ 0 ∨ people < 1
    · simp only [if_pos h1]
    by_cases h2 : transportEmissionFactor < 0 ∨ humanRespirationFactor < 0
    · simp only [if_neg h1, if_pos h2]
    by_cases h3 : transportId = "walking"
    · simp only [if_neg h1, if_neg h2, if_pos h3]
    have hp : ¬ people < 1 := fun h => h1 (Or.inr h)
    simp only [if_neg h1, if_neg h2, if_neg h3, divideFrom1, if_neg hp]
    rfl

/-! ## Total against per-person total, and the total as people are added -/

/-- Value of `calculateCO2Emission` past its three guards. -/
theorem calculateCO2Emission_past_guards (distance transportEmissionFactor people : ℚ)
    (transportId : String) (humanRespirationFactor : ℚ)
    (hd : 0 < distance) (hp : 1 ≤ people) (hf : 0 ≤ transportEmissionFactor)
    (hh : 0 ≤ humanRespirationFactor) (hw : transportId ≠ "walking") :
    calculateCO2Emission distance transportEmissionFactor people transportId
        humanRespirationFactor
      = distance * transportEmissionFactor / people
        + distance * humanRespirationFactor * people := by
  unfold calculateCO2Emission
  rw [if_neg (by push_neg; exact ⟨hd, hp⟩), if_neg (by push_neg; exact ⟨hf, hh⟩),
    if_neg hw]

/-- Field totalPerPerson of `calculateDetailedEmissionPerPerson` past its three guards. -/
theorem totalPerPerson_past_guards (distance transportEmissionFactor people : ℚ)
    (transportId : String) (humanRespirationFactor : ℚ)
    (hd : 0 < distance) (hp : 1 ≤ people) (hf : 0 ≤ transportEmissionFactor)
    (hh : 0 ≤ humanRespirationFactor) (hw : transportId ≠ "walking") :
    (calculateDetailedEmissionPerPerson distance transportEmissionFactor people
        transportId humanRespirationFactor).totalPerPerson
      = distance * transportEmissionFactor / people
        + distance * humanRespirationFactor := by
  unfold calculateDetailedEmissionPerPerson
  rw [if_neg (by push_neg; exact ⟨hd, hp⟩), if_neg (by push_neg; exact ⟨hf, hh⟩),
    if_neg hw]

/-- C19: for distance > 0, people >= 1, non-negative factors and a transport id other
than "walking", the total of `calculateCO2Emission` equals totalPerPerson * people
exactly when people = 1 or the transport factor is 0; otherwise it is strictly smaller. -/
theorem total_vs_totalPerPerson_times_people
    (distance transportEmissionFactor people : ℚ)
    (transportId : String) (humanRespirationFactor : ℚ)
    (hd : 0 < distance) (hp : 1 ≤ people) (hf : 0 ≤ transportEmissionFactor)
    (hh : 0 ≤ humanRespirationFactor) (hw : transportId ≠ "walking") :
    (calculateCO2Emission distance transportEmissionFactor people transportId
        humanRespirationFactor
      = (calculateDetailedEmissionPerPerson distance transportEmissionFactor people
          transportId humanRespirationFactor).totalPerPerson * people
      ↔ people = 1 ∨ transportEmissionFactor = 0)
    ∧ (¬ (people = 1 ∨ transportEmissionFactor = 0) →
      calculateCO2Emission distance transportEmissionFactor people transportId
          humanRespirationFactor
        < (calculateDetailedEmissionPerPerson distance transportEmissionFactor people
            transportId humanRespirationFactor).totalPerPerson * people) := by
  rw [calculateCO2Emission_past_guards _ _ _ _ _ hd hp hf hh hw,
    totalPerPerson_past_guards _ _ _ _ _ hd hp hf hh hw]
  have hp0 : 0 < people := lt_of_lt_of_le one_pos hp
  have hdiff : (distance * transportEmissionFactor / people
        + distance * humanRespirationFactor) * people
      - (distance * transportEmissionFactor / people
        + distance * humanRespirationFactor * people)
      = distance * transportEmissionFactor * (people - 1) / people := by
    field_simp
    ring
  constructor
  · constructor
    · intro heq
      have hz : distance * transportEmissionFactor * (people - 1) / people = 0 := by
        rw [← hdiff, heq]; ring
      rw [div_eq_zero_iff] at hz
      rcases hz with hz | hz
      · rcases mul_eq_zero.mp hz with hz | hz
        · rcases mul_eq_zero.mp hz with hz | hz
          · exact absurd hz hd.ne'
          · exact Or.inr hz
        · exact Or.inl (by linarith)
      · exact absurd hz hp0.ne'
    · rintro (h1 | h0)
      · subst h1; ring
      · subst h0; ring
  · intro hne
    push_neg at hne
    have hp1 : 0 < people - 1 := by
      rcases lt_or_eq_of_le hp with h | h
      · linarith
      · exact absurd h.symm hne.1
    have hf0 : 0 < transportEmissionFactor := lt_of_le_of_ne hf (Ne.symm hne.2)
    have hpos : 0 < distance * transportEmissionFactor * (people - 1) / people :=
      div_pos (mul_pos (mul_pos hd hf0) hp1) hp0
    rw [← hdiff] at hpos
    linarith

/-- C19 on 429 km by car with 2 people: the total 48.3054 is below
totalPerPerson * 2 = 89.4894; and with 1 person the two are equal. -/
theorem total_vs_totalPerPerson_times_people_witness :
    calculateCO2Emission 429 0.192 2 "car" 0.0083
      < (calculateDetailedEmissionPerPerson 429 0.192 2 "car" 0.0083).totalPerPerson * 2
    ∧ calculateCO2Emission 429 0.192 1 "car" 0.0083
      = (calculateDetailedEmissionPerPerson 429 0.192 1 "car" 0.0083).totalPerPerson * 1 :=
  ⟨(total_vs_totalPerPerson_times_people 429 0.192 2 "car" 0.0083 (by norm_num)
      (by norm_num) (by norm_num) (by norm_num) (by decide)).2 (by norm_num),
   (total_vs_totalPerPerson_times_people 429 0.192 1 "car" 0.0083 (by norm_num)
      (by norm_num) (by norm_num) (by norm_num) (by decide)).1.mpr (Or.inl rfl)⟩

/-- C20: for distance > 0, transport factor f >= 0, human factor h > 0, a transport id
other than "walking" and people count p >= 1, the total of `calculateCO2Emission` at
p + 1 is strictly greater than at p exactly when f < h * p * (p + 1), and strictly
smaller exactly when h * p * (p + 1) < f: the total is not monotone in p. -/
theorem total_increases_iff (distance f h p : ℚ) (transportId : String)
    (hd : 0 < distance) (hf : 0 ≤ f) (hh : 0 < h) (hw : transportId ≠ "walking")
    (hp : 1 ≤ p) :
    (calculateCO2Emission distance f p transportId h
        < calculateCO2Emission distance f (p + 1) transportId h
      ↔ f < h * p * (p + 1))
    ∧ (calculateCO2Emission distance f (p + 1) transportId h
        < calculateCO2Emission distance f p transportId h
      ↔ h * p * (p + 1) < f) := by
  have hp0 : 0 < p := lt_of_lt_of_le one_pos hp
  have hp1 : 0 < p + 1 := by linarith
  rw [calculateCO2Emission_past_guards _ _ _ _ _ hd hp hf hh.le hw,
    calculateCO2Emission_past_guards _ _ _ _ _ hd (by linarith) hf hh.le hw]
  have hdiff : (distance * f / (p + 1) + distance * h * (p + 1))
      - (distance * f / p + distance * h * p)
      = distance * (h * p * (p + 1) - f) / (p * (p + 1)) := by
    field_simp
    ring
  have hden : 0 < p * (p + 1) := mul_pos hp0 hp1
  constructor
  · rw [← sub_pos, hdiff, div_pos_iff_of_pos_right hden, mul_pos_iff_of_pos_left hd, sub_pos]
  · rw [← sub_neg, hdiff]
    constructor
    · intro hlt
      by_contra hge
      push_neg at hge
      have hnn : 0 ≤ distance * (h * p * (p + 1) - f) / (p * (p + 1)) :=
        div_nonneg (mul_nonneg hd.le (by linarith)) hden.le
      linarith
    · intro hlt
      exact div_neg_of_neg_of_pos (mul_neg_of_pos_of_neg hd (by linarith)) hden

/-- C20 for the car factor 0.192 and human factor 0.0083 on 429 km: going from 4 to 5
travellers lowers the total, going from 5 to 6 raises it. -/
theorem total_increases_iff_witness :
    calculateCO2Emission 429 0.192 (4 + 1) "car" 0.0083
      < calculateCO2Emission 429 0.192 4 "car" 0.0083
    ∧ calculateCO2Emission 429 0.192 5 "car" 0.0083
      < calculateCO2Emission 429 0.192 (5 + 1) "car" 0.0083 :=
  ⟨(total_increases_iff 429 0.192 0.0083 4 "car" (by norm_num) (by norm_num)
      (by norm_num) (by decide) (by norm_num)).2.mpr (by norm_num),
   (total_increases_iff 429 0.192 0.0083 5 "car" (by norm_num) (by norm_num)
      (by norm_num) (by decide) (by norm_num)).1.mpr (by norm_num)⟩

/-! ## The checks of handleFormSubmit -/

/-- A read of `EMISSION_FACTORS` gives a non-negative number of the table, or a member
inherited under a property name of `Object.prototype`, or `undefined`. -/
theorem emissionFactorsGet_cases (id : String) :
    (∃ q : ℚ, 0 ≤ q ∧ emissionFactorsGet id = .number q)
    ∨ (id ∈ objectPrototypeKeys ∧ emissionFactorsGet id = .inherited id)
    ∨ emissionFactorsGet id = .undefined := by
  unfold emissionFactorsGet
  cases h : EMISSION_FACTORS.lookup id with
  | none =>
    by_cases hk : id ∈ objectPrototypeKeys
    · simp [hk]
    · simp [hk]
  | some q =>
    left
    refine ⟨q, ?_, rfl⟩
    simp only [EMISSION_FACTORS, List.lookup] at h
    repeat' split at h
    all_goals first
      | (cases h; done)
      | (cases h; norm_num)

/-- The value of `getEmissionFactor` is a non-negative number, or a member inherited
under a property name of `Object.prototype`. -/
theorem getEmissionFactor_cases (id : String) :
    (∃ q : ℚ, 0 ≤ q ∧ getEmissionFactor id = .number q)
    ∨ (id ∈ objectPrototypeKeys ∧ getEmissionFactor id = .inherited id) := by
  unfold getEmissionFactor
  rcases emissionFactorsGet_cases id with ⟨q, hq, h⟩ | ⟨hk, h⟩ | h
  · left
    by_cases h0 : q = 0
    · exact ⟨0, le_refl 0, by simp [h, JsValue.truthy, h0]⟩
    · exact ⟨q, hq, by simp [h, JsValue.truthy, h0]⟩
  · right
    exact ⟨hk, by simp [h, JsValue.truthy]⟩
  · left
    exact ⟨0, le_refl 0, by simp [h, JsValue.truthy]⟩

/-- An identifier that is neither a key of the table nor a property name of
`Object.prototype` has the factor 0. -/
theorem getEmissionFactor_unknown (id : String)
    (hk : id ∉ EMISSION_FACTORS.map (fun e => e.1)) (hp : id ∉ objectPrototypeKeys) :
    getEmissionFactor id = .number 0 := by
  have hl : EMISSION_FACTORS.lookup id = none := by
    rw [List.lookup_eq_none_iff]
    intro p hpm
    rw [bne_iff_ne]
    intro heq
    apply hk
    rw [heq]
    exact List.mem_map_of_mem (fun e => e.1) hpm
  simp [getEmissionFactor, emissionFactorsGet, hl, hp, JsValue.truthy]

/-- The transport test of `handleFormSubmit` is false on every value of
`getEmissionFactor`. -/
theorem getEmissionFactor_passes_transport_test (id : String) :
    (getEmissionFactor id).isNullish = false ∧ (getEmissionFactor id).ltZero = false := by
  rcases getEmissionFactor_cases id with ⟨q, hq, h⟩ | ⟨_, h⟩
  · rw [h]
    exact ⟨rfl, by simp [JsValue.ltZero, JsValue.toNumber, hq]⟩
  · rw [h]
    exact ⟨rfl, rfl⟩

/-- With a positive distance `validateCalculationParams` accepts every value of
`getEmissionFactor`. -/
theorem validateCalculationParamsValue_getEmissionFactor (id : String) (d : ℚ)
    (hd : 0 < d) :
    validateCalculationParamsValue (some d) (getEmissionFactor id) = ⟨true, ""⟩ := by
  simp [validateCalculationParamsValue, if_neg (not_lt.mpr hd.le), if_neg hd.ne',
    (getEmissionFactor_passes_transport_test id).2]

/-- C21: in `handleFormSubmit` neither the transport test nor the second validation
fails: for every transport id the test on `getEmissionFactor id` is false, for every
distance > 0 `validateCalculationParams` on it is valid, and once the form is valid and
the distance is positive the calculation is reached; an identifier that is neither in
the catalogue nor a property name of `Object.prototype` is computed with factor 0.
Outside the property names of `Object.prototype` the factor is a non-negative number;
for "toString" it is the inherited member, which is not a number. -/
theorem handleFormSubmit_second_validation
    (getDistanceBetweenCapitals : String → String → Option ℚ) (dom : FormDom)
    (id : String) (d : ℚ) :
    ((getEmissionFactor id).isNullish || (getEmissionFactor id).ltZero) = false
    ∧ (0 < d →
        (validateCalculationParamsValue (some d) (getEmissionFactor id)).isValid = true)
    ∧ handleFormSubmit getDistanceBetweenCapitals dom
        ≠ .error "Tipo de transporte não encontrado ou inválido."
    ∧ (∀ formData : FormData, ∀ distance : ℚ,
        (validateForm getDistanceBetweenCapitals dom).isValid = true →
        getFormData getDistanceBetweenCapitals dom = some formData →
        formData.distance = some distance → 0 < distance →
        handleFormSubmit getDistanceBetweenCapitals dom
          = .calculate distance (getEmissionFactor formData.transportId) formData.people
              formData.transportId getHumanRespirationFactor)
    ∧ (id ∉ EMISSION_FACTORS.map (fun e => e.1) → id ∉ objectPrototypeKeys →
        getEmissionFactor id = .number 0)
    ∧ (id ∉ objectPrototypeKeys → ∃ q : ℚ, 0 ≤ q ∧ getEmissionFactor id = .number q)
    ∧ getEmissionFactor "toString" = .inherited "toString"
    ∧ (getEmissionFactor "toString").toNumber = none := by
  have hreach : ∀ formData : FormData, ∀ distance : ℚ,
      (validateForm getDistanceBetweenCapitals dom).isValid = true →
      getFormData getDistanceBetweenCapitals dom = some formData →
      formData.distance = some distance → 0 < distance →
      handleFormSubmit getDistanceBetweenCapitals dom
        = .calculate distance (getEmissionFactor formData.transportId) formData.people
            formData.transportId getHumanRespirationFactor := by
    intro formData distance hv hfd hdist hpos
    have ht := getEmissionFactor_passes_transport_test formData.transportId
    have hc := validateCalculationParamsValue_getEmissionFactor formData.transportId
      distance hpos
    simp [handleFormSubmit, hv, hfd, hdist, not_le.mpr hpos, ht.1, ht.2, hc]
  have hinh : getEmissionFactor "toString" = .inherited "toString" := by
    simp [getEmissionFactor, emissionFactorsGet, EMISSION_FACTORS, objectPrototypeKeys,
      List.lookup, JsValue.truthy]
  refine ⟨?_, ?_, ?_, hreach, getEmissionFactor_unknown id, ?_, hinh, ?_⟩
  · have ht := getEmissionFactor_passes_transport_test id
    simp [ht.1, ht.2]
  · intro hd
    rw [validateCalculationParamsValue_getEmissionFactor id d hd]
  · unfold handleFormSubmit
    by_cases hv : (validateForm getDistanceBetweenCapitals dom).isValid = true
    · cases hfd : getFormData getDistanceBetweenCapitals dom with
      | none => simp [hv]
      | some formData =>
        cases hdist : formData.distance with
        | none => simp [hv, hdist]
        | some distance =>
          by_cases hpos : distance ≤ 0
          · simp [hv, hdist, hpos]
          · have ht := getEmissionFactor_passes_transport_test formData.transportId
            have hc := validateCalculationParamsValue_getEmissionFactor
              formData.transportId distance (not_le.mp hpos)
            simp [hv, hdist, hpos, ht.1, ht.2, hc]
    · have hvf : (validateForm getDistanceBetweenCapitals dom).isValid = false := by
        simpa using hv
      simp only [hvf, Bool.not_false, if_true]
      intro heq
      have hmsg : (validateForm getDistanceBetweenCapitals dom).message
          = "Tipo de transporte não encontrado ou inválido." := SubmitOutcome.error.inj heq
      revert hmsg
      unfold validateForm
      cases getFormData getDistanceBetweenCapitals dom with
      | none => simp
      | some formData =>
        dsimp only
        split_ifs <;> simp
  · intro hp
    rcases getEmissionFactor_cases id with h | ⟨hk, _⟩
    · exact h
    · exact absurd hk hp
  · rw [hinh]
    rfl

/-- C21 on a valid form from "SP" to "RJ" with 2 people and a distance of 429 km: the
identifier "bicycle", which is not in the catalogue, reaches the calculation with factor
0, and "toString" reaches it with the inherited member as its factor. -/
theorem handleFormSubmit_second_validation_witness :
    handleFormSubmit (fun _ _ => some 429)
        ⟨some "SP", some "RJ", some "bicycle", some (some 2)⟩
      = .calculate 429 (.number 0) 2 "bicycle" getHumanRespirationFactor
    ∧ handleFormSubmit (fun _ _ => some 429)
        ⟨some "SP", some "RJ", some "toString", some (some 2)⟩
      = .calculate 429 (.inherited "toString") 2 "toString" getHumanRespirationFactor := by
  have hb := handleFormSubmit_second_validation (fun _ _ => some 429)
    ⟨some "SP", some "RJ", some "bicycle", some (some 2)⟩ "bicycle" 429
  have ht := handleFormSubmit_second_validation (fun _ _ => some 429)
    ⟨some "SP", some "RJ", some "toString", some (some 2)⟩ "toString" 429
  have hb0 : getEmissionFactor "bicycle" = .number 0 :=
    hb.2.2.2.2.1 (by decide) (by decide)
  constructor
  · have h := hb.2.2.2.1 ⟨"SP", "RJ", some 429, "bicycle", 2⟩ 429 (by decide) rfl
      rfl (by norm_num)
    rw [h]
    exact congrArg (fun v => SubmitOutcome.calculate 429 v 2 "bicycle"
      getHumanRespirationFactor) hb0
  · have h := ht.2.2.2.1 ⟨"SP", "RJ", some 429, "toString", 2⟩ 429 (by decide) rfl
      rfl (by norm_num)
    rw [h]
    exact congrArg (fun v => SubmitOutcome.calculate 429 v 2 "toString"
      getHumanRespirationFactor) ht.2.2.2.2.2.2.1

/-! ## The people branch of validateForm -/

/-- A form that `getFormData` accepts has a people count of at least 1. -/
theorem getFormData_people_ge_one
    (getDistanceBetweenCapitals : String → String → Option ℚ) (dom : FormDom)
    (formData : FormData)
    (h : getFormData getDistanceBetweenCapitals dom = some formData) :
    1 ≤ formData.people := by
  unfold getFormData at h
  split at h
  · rename_i origin destination transportId parsed _ _ _ _
    cases parsed with
    | none => simp at h
    | some people =>
      dsimp only at h
      split_ifs at h with hc
      · have hfd := Option.some.inj h
        rw [← hfd]
        simp only [Bool.or_eq_true, decide_eq_true_eq, not_or, not_lt] at hc
        exact hc.2
  · simp at h

/-- C22: `validateForm` never returns the message "O número de pessoas deve ser pelo
menos 1.": when the people input is missing, holds no number, or holds a number below
1 (0 included), `getFormData` returns null and `validateForm` answers "Por favor,
preencha todos os campos.". -/
theorem validateForm_people_branch_unreachable
    (getDistanceBetweenCapitals : String → String → Option ℚ) (dom : FormDom) :
    (validateForm getDistanceBetweenCapitals dom).message
      ≠ "O número de pessoas deve ser pelo menos 1."
    ∧ ((dom.peopleInput = none ∨ dom.peopleInput = some none
          ∨ ∃ n : Int, dom.peopleInput = some (some n) ∧ n < 1) →
        getFormData getDistanceBetweenCapitals dom = none
        ∧ validateForm getDistanceBetweenCapitals dom
          = ⟨false, "Por favor, preencha todos os campos."⟩) := by
  constructor
  · unfold validateForm
    cases hfd : getFormData getDistanceBetweenCapitals dom with
    | none => simp
    | some formData =>
      have hp := getFormData_people_ge_one getDistanceBetweenCapitals dom formData hfd
      have hbranch : ¬ (formData.people = 0 ∨ formData.people < 1) := by omega
      dsimp only
      rw [if_neg hbranch]
      split_ifs <;> simp
  · intro hpeople
    have hnone : getFormData getDistanceBetweenCapitals dom = none := by
      obtain ⟨o, d, t, p⟩ := dom
      simp only at hpeople
      rcases hpeople with h | h | ⟨n, h, hn⟩
      · subst h
        cases o <;> cases d <;> cases t <;> rfl
      · subst h
        cases o <;> cases d <;> cases t <;> rfl
      · subst h
        cases o <;> cases d <;> cases t <;> simp [getFormData, hn]
    refine ⟨hnone, ?_⟩
    unfold validateForm
    rw [hnone]

/-- C22 on a form whose people input holds 0, and on one whose people input holds no
number: both are answered with "Por favor, preencha todos os campos.". -/
theorem validateForm_people_branch_unreachable_witness :
    validateForm (fun _ _ => some 429) ⟨some "SP", some "RJ", some "car", some (some 0)⟩
      = ⟨false, "Por favor, preencha todos os campos."⟩
    ∧ validateForm (fun _ _ => some 429) ⟨some "SP", some "RJ", some "car", some none⟩
      = ⟨false, "Por favor, preencha todos os campos."⟩ :=
  ⟨((validateForm_people_branch_unreachable (fun _ _ => some 429)
      ⟨some "SP", some "RJ", some "car", some (some 0)⟩).2
      (Or.inr (Or.inr ⟨0, rfl, by decide⟩))).2,
   ((validateForm_people_branch_unreachable (fun _ _ => some 429)
      ⟨some "SP", some "RJ", some "car", some none⟩).2 (Or.inr (Or.inl rfl))).2⟩

/-! ## Small emissions -/

/-- C23: for every value with 0 < value < 0.005, `formatEmission` with 2 decimals, given
or by default, returns "0.00 kg CO₂", which is not the text "0 kg CO₂" of the value 0.
Such a value comes from a valid trip: 300 km by train (0.014) with 1000 people has
transportPerPerson = 0.0042. -/
theorem formatEmission_small_value (render : ℚ → String) (value : ℚ)
    (h0 : 0 < value) (h5 : value < 0.005) :
    formatEmission render value (some 2) = .ok "0.00 kg CO₂"
    ∧ formatEmission render value none = .ok "0.00 kg CO₂"
    ∧ formatEmission render value (some 2) ≠ .ok "0 kg CO₂"
    ∧ (calculateDetailedEmissionPerPerson 300 0.014 1000 "train" 0.0083).transportPerPerson
      = 0.0042 := by
  have hn : ⌊value * 10 ^ 2 + 1 / 2⌋ = 0 := by
    rw [Int.floor_eq_iff]
    constructor
    · push_cast
      nlinarith
    · push_cast
      norm_num at h5 ⊢
      linarith
  have h21 : value < 10 ^ 21 := by
    norm_num at h5 ⊢
    linarith
  have htext : formatEmission render value (some 2) = .ok "0.00 kg CO₂" := by
    rw [formatEmission_of_round render value 0 h0 h21 hn]
    exact congrArg Except.ok (by decide)
  refine ⟨htext, htext, ?_, ?_⟩
  · rw [htext]
    intro heq
    exact absurd (Except.ok.inj heq) (by decide)
  · unfold calculateDetailedEmissionPerPerson
    rw [if_neg (by norm_num), if_neg (by norm_num), if_neg (by decide)]
    norm_num

/-- C23 on the trip of 300 km by train with 1000 people: the transport share per person,
0.0042 kg, is shown as "0.00 kg CO₂". -/
theorem formatEmission_small_value_witness :
    formatEmission unusedRender
        (calculateDetailedEmissionPerPerson 300 0.014 1000 "train" 0.0083).transportPerPerson
        none
      = .ok "0.00 kg CO₂" := by
  have h := formatEmission_small_value unusedRender 0.0042 (by norm_num) (by norm_num)
  rw [h.2.2.2]
  exact h.2.1

end CarbonCalc
